import Mathlib

/-!
Shallow embedding of `benchmark.py`, an asynchronous JSON-RPC provider
benchmark.  The network is abstracted by an `HttpOutcome` supplied per call;
everything the script computes from that outcome — client selection, the
request envelope, error classification, batch fan-out, and the scenario
sweeps — is transcribed from the source.
-/

/-- Python/JSON values as produced by `res.json()` and used in request
bodies.  `null` is Python `None`. -/
inductive PyVal : Type where
  | null : PyVal
  | bool : Bool → PyVal
  | int : Int → PyVal
  | str : String → PyVal
  | list : List PyVal → PyVal
  | dict : List (String × PyVal) → PyVal

def PyVal.isDict : PyVal → Bool
  | PyVal.dict _ => true
  | _ => false

def PyVal.isStr : PyVal → Bool
  | PyVal.str _ => true
  | _ => false

/-- Key lookup in an association list standing for a Python dict: `some v`
when the key is present, `Option.none` when absent. -/
def listGet : List (String × PyVal) → String → Option PyVal
  | [], _ => Option.none
  | (k, v) :: rest, key => if k = key then some v else listGet rest key

/-- Python `d.get(key)` / `d.get(key, None)`: the value when present,
`None` otherwise. -/
def pyDictGet (kvs : List (String × PyVal)) (key : String) : PyVal :=
  (listGet kvs key).getD PyVal.null

/-- Field lookup on a `PyVal` that is a dict. -/
def pyGetField : PyVal → String → Option PyVal
  | PyVal.dict kvs, key => listGet kvs key
  | _, _ => Option.none

/-- The `client` argument of `rpc_call`: either a single client or a list
(pool) of clients, matching the source's `isinstance(client, list)` test. -/
inductive ClientArg (α : Type) : Type where
  | single : α → ClientArg α
  | pool : List α → ClientArg α

/-- Lines 54-55 of the source: `random.choice(client)` over a pool, modelled
by an externally supplied random index (uniform over `[0, len)` in the
source; `r % length` keeps the model total).  `random.choice` on an empty
list raises `IndexError`, modelled as `Option.none`. -/
def resolveClient {α : Type} : ClientArg α → Nat → Option α
  | ClientArg.single c, _ => some c
  | ClientArg.pool cs, r => cs.get? (r % cs.length)

/-- A client argument that cannot make `random.choice` raise. -/
def cargNonempty {α : Type} : ClientArg α → Bool
  | ClientArg.single _ => true
  | ClientArg.pool cs => !cs.isEmpty

/-- What the network does for one POST: either an exception of the caught
class (`httpx.RequestError`, `httpx.HTTPError`, `h2 ProtocolError`),
carrying its `repr`, or a completed HTTP response with a status code and a
parsed JSON body. -/
inductive HttpOutcome : Type where
  | exn : String → HttpOutcome
  | response : Nat → PyVal → HttpOutcome

/-- The `httpx` success test behind `res.raise_for_status()`: 2xx. -/
def isSuccess (status : Nat) : Bool :=
  decide (200 ≤ status) && decide (status < 300)

/-- `repr` of the `httpx.HTTPStatusError` raised by `raise_for_status` for
a non-2xx status: a (non-null) string form of the failure. -/
def httpStatusRepr (status : Nat) : String :=
  "HTTPStatusError(status_code=" ++ toString status ++ ")"

/-- Lines 82-86 of the source: `error = res.json().get("error", None)`;
when the result is a dict, `error = error.get("message")`. -/
def jsonError (kvs : List (String × PyVal)) : PyVal :=
  match pyDictGet kvs "error" with
  | PyVal.dict d => pyDictGet d "message"
  | v => v

/-- One per-call measurement: the dict built at the end of `rpc_call`.
`endTime` is the source's `end` field (`end` is reserved in Lean). -/
structure CallRecord : Type where
  start : Nat
  endTime : Nat
  error : PyVal

/-- Lines 53-95 (`rpc_call`): select a client, perform the POST, classify
the outcome, and return the response (or `None`) with the record.  The
outer `Option` is `Option.none` exactly when the call raises an uncaught
exception: `IndexError` from `random.choice` on an empty pool, or
`AttributeError` when a 2xx JSON body is not an object (`.get` on a
non-dict). -/
def rpc_call {α : Type} (carg : ClientArg α) (r : Nat) (outcome : HttpOutcome)
    (tStart tEnd : Nat) : Option (Option (Nat × PyVal) × CallRecord) :=
  match resolveClient carg r with
  | Option.none => Option.none
  | some _ =>
    match outcome with
    | HttpOutcome.exn msg =>
        some (Option.none, ⟨tStart, tEnd, PyVal.str msg⟩)
    | HttpOutcome.response status body =>
        if isSuccess status then
          match body with
          | PyVal.dict kvs =>
              some (some (status, PyVal.dict kvs), ⟨tStart, tEnd, jsonError kvs⟩)
          | _ => Option.none
        else
          some (Option.none, ⟨tStart, tEnd, PyVal.str (httpStatusRepr status)⟩)

/-- An outcome on which `rpc_call` raises no uncaught exception: an
exception of the caught class, a non-2xx response, or a 2xx response whose
JSON body is an object.  This covers all three failure kinds of the spec's
error taxonomy. -/
def tameOutcome : HttpOutcome → Bool
  | HttpOutcome.exn _ => true
  | HttpOutcome.response status body => !(isSuccess status) || body.isDict

/-- Python `hex(i)` for a nonnegative integer: `0x` then lowercase hex
digits. -/
def pyHex (i : Nat) : String := "0x" ++ String.mk (Nat.toDigits 16 i)

/-- The first params element built by the batch tasks:
`hex(i) if use_hex else i`. -/
def blockParam (useHex : Bool) (i : Nat) : PyVal :=
  if useHex then PyVal.str (pyHex i) else PyVal.int i

/-- The params array of one `eth_getBlockByNumber` call:
`[hex(i) if use_hex else i, False]`. -/
def blockCallParams (useHex : Bool) (i : Nat) : List PyVal :=
  [blockParam useHex i, PyVal.bool false]

/-- The JSON-RPC 2.0 envelope posted by `rpc_call` (lines 64-69). -/
def rpcRequestBody (method : String) (params : List PyVal) : PyVal :=
  PyVal.dict [("jsonrpc", PyVal.str "2.0"), ("id", PyVal.int 1),
              ("method", PyVal.str method), ("params", PyVal.list params)]

/-- Python `range(a, b)`. -/
def pyRange (a b : Nat) : List Nat := (List.range (b - a)).map (a + ·)

/-- `asyncio.gather`: all task results in input order, or the propagated
exception when any task raised. -/
def gatherAll {β : Type} : List (Option β) → Option (List β)
  | [] => some []
  | Option.none :: _ => Option.none
  | some b :: rest => (gatherAll rest).map (b :: ·)

/-- One task of `test_flood` / `test_limit`: a gated `rpc_call` of
`eth_getBlockByNumber` for block `i`.  `net` gives the network outcome for
a request body, `rch` the random choice for the call, `times` its
start/end stamps. -/
def batchTask {α : Type} (useHex : Bool) (carg : ClientArg α) (rch : Nat → Nat)
    (net : PyVal → HttpOutcome) (times : Nat → Nat × Nat) (i : Nat) :
    Option (Option (Nat × PyVal) × CallRecord) :=
  rpc_call carg (rch i)
    (net (rpcRequestBody "eth_getBlockByNumber" (blockCallParams useHex i)))
    (times i).1 (times i).2

/-- `test_flood` lines 143-155: fan out one task per block, gather, keep
`c[1]` of every call. -/
def test_flood_stats {α : Type} (blocks : List Nat) (useHex : Bool)
    (carg : ClientArg α) (rch : Nat → Nat) (net : PyVal → HttpOutcome)
    (times : Nat → Nat × Nat) : Option (List CallRecord) :=
  (gatherAll (blocks.map (batchTask useHex carg rch net times))).map
    (fun calls => calls.map Prod.snd)

/-- `test_limit` lines 111-123: the identical data path behind the rate
gate. -/
def test_limit_stats {α : Type} (blocks : List Nat) (useHex : Bool)
    (carg : ClientArg α) (rch : Nat → Nat) (net : PyVal → HttpOutcome)
    (times : Nat → Nat × Nat) : Option (List CallRecord) :=
  (gatherAll (blocks.map (batchTask useHex carg rch net times))).map
    (fun calls => calls.map Prod.snd)

/-- The Result Sink (lines 125-127 / 157-159): one tabular row per record,
columns = record fields. -/
def resultSinkRows (stats : List CallRecord) : List (Nat × Nat × PyVal) :=
  stats.map (fun r => (r.start, r.endTime, r.error))

/-- The two gating strategies of the harness: `test_flood` uses an
`asyncio.Semaphore` (flood mode), `test_limit` an `AsyncLimiter` rolling
window (limit mode). -/
inductive Mode : Type where
  | flood : Mode
  | limit : Mode
deriving DecidableEq

/-- One batch as issued by the Scenario Driver: which gating function ran,
with which label, URL, block range, gate parameter, client count, protocol
and block-number encoding. -/
structure BatchSpec : Type where
  mode : Mode
  tag : String
  label : String
  url : String
  startBlock : Nat
  numBlocks : Nat
  gate : Nat
  clients : Nat
  h2 : Bool
  useHex : Bool
deriving DecidableEq

/-- An element of a Scenario Driver trace: a batch or an `asyncio.sleep`. -/
inductive Event : Type where
  | batch : BatchSpec → Event
  | sleep : Nat → Event
deriving DecidableEq

def START_BLOCK : Nat := 19180000

def NUM_BLOCKS : Nat := 1000

/-- The f-string label of a `test_flood_protocols` batch. -/
def floodLabel (tag : String) (c : Nat) (proto : String) (i : Nat) : String :=
  tag ++ ",b=" ++ toString NUM_BLOCKS ++ ",c=" ++ toString c ++ ",p=" ++
    proto ++ ",i=" ++ toString i

/-- `test_flood_protocols` (lines 162-203): four flood batches over
`range(START_BLOCK, START_BLOCK + NUM_BLOCKS)` — one H1 client, three H1
clients, one H2 client, three H2 clients — with `asyncio.sleep(60)` between
consecutive batches. -/
def test_flood_protocols_trace (url tag : String) (concurrency : Nat)
    (useHex : Bool) : List Event :=
  [Event.batch ⟨Mode.flood, tag, floodLabel tag concurrency "h1" 1, url,
      START_BLOCK, NUM_BLOCKS, concurrency, 1, false, useHex⟩,
   Event.sleep 60,
   Event.batch ⟨Mode.flood, tag, floodLabel tag concurrency "h1" 3, url,
      START_BLOCK, NUM_BLOCKS, concurrency, 3, false, useHex⟩,
   Event.sleep 60,
   Event.batch ⟨Mode.flood, tag, floodLabel tag concurrency "h2" 1, url,
      START_BLOCK, NUM_BLOCKS, concurrency, 1, true, useHex⟩,
   Event.sleep 60,
   Event.batch ⟨Mode.flood, tag, floodLabel tag concurrency "h2" 3, url,
      START_BLOCK, NUM_BLOCKS, concurrency, 3, true, useHex⟩]

/-- `test_flood_protocols_all_providers` (lines 206-229): the protocol
sweep for alchemy (hex), chainstack (decimal) and quicknode (hex), with
`asyncio.sleep(15)` between providers. -/
def test_flood_protocols_all_providers_trace
    (alchemyUrl chainstackUrl quicknodeUrl : String) (concurrency : Nat) :
    List Event :=
  test_flood_protocols_trace alchemyUrl "alchemy" concurrency true
    ++ Event.sleep 15 ::
      test_flood_protocols_trace chainstackUrl "chainstack" concurrency false
    ++ Event.sleep 15 ::
      test_flood_protocols_trace quicknodeUrl "quicknode" concurrency true

/-- The f-string label of a `test_limits_all` batch; note it always writes
`i={cn}` even for the warm-up batches that pass a single client. -/
def limitsLabel (provider : String) (blocks i cn : Nat) : String :=
  provider ++ ",burst,b=" ++ toString blocks ++ ",c=" ++ toString i ++
    ",p=h2,i=" ++ toString cn

/-- The inner `_call(i, bf, clients)` of `test_limits_all` (lines 257-269):
one `test_flood` batch over `bf * i` blocks at concurrency `i`, followed by
`asyncio.sleep(5)`.  `clientsCount` is the size of the client argument
actually passed. -/
def limitsCallEvents (provider url : String) (cn i bf clientsCount : Nat) :
    List Event :=
  [Event.batch ⟨Mode.flood, provider, limitsLabel provider (bf * i) i cn, url,
      START_BLOCK, bf * i, i, clientsCount, true, provider != "chainstack"⟩,
   Event.sleep 5]

/-- The per-provider body of `test_limits_all` (lines 255-276): a pool of
`cn = 5` H2 clients; one warm-up `_call(cn, 1, client)` per pool member
(each over a single client); then `_call(i)` for `i in range(5, 125, 5)`
over the full pool. -/
def test_limits_provider_trace (provider url : String) : List Event :=
  ((List.range 5).map (fun _ => limitsCallEvents provider url 5 5 1 1)).flatten
    ++ ((List.range' 5 24 5).map
        (fun i => limitsCallEvents provider url 5 i 3 5)).flatten

/-- `test_limits_all` (lines 247-276): the limit/burst sweep for quicknode,
alchemy and chainstack, in that order. -/
def test_limits_all_trace (quicknodeUrl alchemyUrl chainstackUrl : String) :
    List Event :=
  test_limits_provider_trace "quicknode" quicknodeUrl
    ++ test_limits_provider_trace "alchemy" alchemyUrl
    ++ test_limits_provider_trace "chainstack" chainstackUrl

def isBatchEvent : Event → Bool
  | Event.batch _ => true
  | Event.sleep _ => false

/-- The batches of a trace, in order. -/
def batchList (t : List Event) : List BatchSpec :=
  t.filterMap (fun e => match e with
    | Event.batch b => some b
    | Event.sleep _ => Option.none)

/-- The sleep durations of a trace, in order. -/
def sleepSecs (t : List Event) : List Nat :=
  t.filterMap (fun e => match e with
    | Event.sleep s => some s
    | Event.batch _ => Option.none)

/-- Strict monotone increase of a number sequence. -/
def strictIncreasing : List Nat → Bool
  | [] => true
  | [_] => true
  | a :: b :: rest => decide (a < b) && strictIncreasing (b :: rest)

/-! ### Helper lemmas -/

theorem resolveClient_isSome {α : Type} (carg : ClientArg α) (r : Nat)
    (hc : cargNonempty carg = true) : (resolveClient carg r).isSome = true := by
  cases carg with
  | single c => rfl
  | pool cs =>
    cases cs with
    | nil => simp [cargNonempty] at hc
    | cons a t =>
      have h : r % (a :: t).length < (a :: t).length :=
        Nat.mod_lt _ (Nat.succ_pos _)
      have he : resolveClient (ClientArg.pool (a :: t)) r
          = (a :: t).get? (r % (a :: t).length) := rfl
      rw [he, List.get?_eq_get h]
      rfl

theorem rpc_call_isSome {α : Type} (carg : ClientArg α) (r : Nat)
    (outcome : HttpOutcome) (tS tE : Nat)
    (hc : cargNonempty carg = true) (ht : tameOutcome outcome = true) :
    (rpc_call carg r outcome tS tE).isSome = true := by
  obtain ⟨c, hcsome⟩ := Option.isSome_iff_exists.mp (resolveClient_isSome carg r hc)
  cases outcome with
  | exn msg => simp [rpc_call, hcsome]
  | response status body =>
    by_cases hs : isSuccess status = true
    · have hd : body.isDict = true := by
        simpa [tameOutcome, hs] using ht
      cases body <;> simp_all [rpc_call, PyVal.isDict, hcsome]
    · simp [rpc_call, hcsome, hs]

theorem gatherAll_length_of_isSome {β : Type} (l : List (Option β))
    (h : ∀ x ∈ l, x.isSome = true) :
    (gatherAll l).map List.length = some l.length := by
  induction l with
  | nil => rfl
  | cons a t ih =>
    obtain ⟨b, hb⟩ := Option.isSome_iff_exists.mp (h a (List.mem_cons_self a t))
    subst hb
    have ht := ih (fun x hx => h x (List.mem_cons_of_mem _ hx))
    cases hg : gatherAll t with
    | none => rw [hg] at ht; simp at ht
    | some xs =>
      rw [hg] at ht
      simp at ht
      simp [gatherAll, hg, ht]

/-! ### Claim theorems -/

/-- Claim C1: for every batch run by the concurrency harness (flood mode or
limit mode) over a block range of length `n`, given a usable client
argument and calls whose outcomes fall in the recovered classes (success,
transport error, HTTP status error, RPC-level error), the list of Call
Records produced and handed to the Result Sink has exactly `n` entries —
one per requested block number — regardless of how many calls failed. -/
theorem batch_record_count {α : Type} (startB n : Nat) (useHex : Bool)
    (carg : ClientArg α) (rch : Nat → Nat) (net : PyVal → HttpOutcome)
    (times : Nat → Nat × Nat)
    (hc : cargNonempty carg = true)
    (ht : ∀ i, tameOutcome
      (net (rpcRequestBody "eth_getBlockByNumber" (blockCallParams useHex i))) = true) :
    (test_flood_stats (pyRange startB (startB + n)) useHex carg rch net times).map
        List.length = some n
    ∧ (test_limit_stats (pyRange startB (startB + n)) useHex carg rch net times).map
        List.length = some n
    ∧ (test_flood_stats (pyRange startB (startB + n)) useHex carg rch net times).map
        (fun stats => (resultSinkRows stats).length) = some n := by
  have hlen : (pyRange startB (startB + n)).length = n := by simp [pyRange]
  have htask : ∀ x ∈ (pyRange startB (startB + n)).map
      (batchTask useHex carg rch net times), x.isSome = true := by
    intro x hx
    obtain ⟨i, hi, rfl⟩ := List.mem_map.mp hx
    exact rpc_call_isSome carg (rch i) _ (times i).1 (times i).2 hc (ht i)
  have hg := gatherAll_length_of_isSome _ htask
  rw [List.length_map, hlen] at hg
  cases hgat : gatherAll ((pyRange startB (startB + n)).map
      (batchTask useHex carg rch net times)) with
  | none => rw [hgat] at hg; simp at hg
  | some calls =>
    rw [hgat] at hg
    simp at hg
    refine ⟨?_, ?_, ?_⟩ <;>
      simp [test_flood_stats, test_limit_stats, resultSinkRows, hgat, hg]

/-- Claim C1 witness: a concrete three-block batch in which every call
fails with a transport error still yields three records. -/
theorem batch_record_count_witness :
    (test_flood_stats (pyRange 100 (100 + 3)) false (ClientArg.single (0 : Nat))
        (fun _ => 0) (fun _ => HttpOutcome.exn "boom") (fun _ => (0, 1))).map
        List.length = some 3
    ∧ (test_limit_stats (pyRange 100 (100 + 3)) false (ClientArg.single (0 : Nat))
        (fun _ => 0) (fun _ => HttpOutcome.exn "boom") (fun _ => (0, 1))).map
        List.length = some 3
    ∧ (test_flood_stats (pyRange 100 (100 + 3)) false (ClientArg.single (0 : Nat))
        (fun _ => 0) (fun _ => HttpOutcome.exn "boom") (fun _ => (0, 1))).map
        (fun stats => (resultSinkRows stats).length) = some 3 :=
  batch_record_count 100 3 false (ClientArg.single (0 : Nat)) (fun _ => 0)
    (fun _ => HttpOutcome.exn "boom") (fun _ => (0, 1)) rfl (fun _ => rfl)

/-- Claim C3 counterexample: with the decimal (non-hex) provider
convention the first params element for block 19180000 is the integer
19180000 itself — a JSON number, not a decimal string — so the block
number is not "translated to a string" in this case. -/
theorem block_param_not_string :
    (blockCallParams false 19180000).head? = some (PyVal.int 19180000)
    ∧ (blockParam false 19180000).isStr = false :=
  ⟨rfl, rfl⟩

/-- Claim C3 (amended): the first element of the params array is the
hexadecimal string `hex(i)` when the provider convention is hex, and the
integer block number itself (a JSON number, not a string) otherwise; the
second element is the boolean `false`, and the params land verbatim in the
JSON-RPC 2.0 envelope whose method is `eth_getBlockByNumber`. -/
theorem block_param_encoding (useHex : Bool) (i : Nat) :
    blockCallParams true i
      = [PyVal.str ("0x" ++ String.mk (Nat.toDigits 16 i)), PyVal.bool false]
    ∧ blockCallParams false i = [PyVal.int (Int.ofNat i), PyVal.bool false]
    ∧ pyGetField (rpcRequestBody "eth_getBlockByNumber" (blockCallParams useHex i))
        "params" = some (PyVal.list (blockCallParams useHex i))
    ∧ pyGetField (rpcRequestBody "eth_getBlockByNumber" (blockCallParams useHex i))
        "method" = some (PyVal.str "eth_getBlockByNumber")
    ∧ pyGetField (rpcRequestBody "eth_getBlockByNumber" (blockCallParams useHex i))
        "jsonrpc" = some (PyVal.str "2.0")
    ∧ pyGetField (rpcRequestBody "eth_getBlockByNumber" (blockCallParams useHex i))
        "id" = some (PyVal.int 1) :=
  ⟨rfl, rfl, rfl, rfl, rfl, rfl⟩

/-- Claim C4: for every call that obtains a 2xx response with a JSON-object
body, `rpc_call` returns that response together with a record whose error
is: null when the top-level error field is absent; the object's nested
message value (null when that key is absent) when the field is an object;
and the field's value verbatim otherwise. -/
theorem rpc_error_extraction {α : Type} (carg : ClientArg α)
    (r status tS tE : Nat) (kvs : List (String × PyVal))
    (hc : cargNonempty carg = true) (hs : isSuccess status = true) :
    ∃ rec : CallRecord,
      rpc_call carg r (HttpOutcome.response status (PyVal.dict kvs)) tS tE
        = some (some (status, PyVal.dict kvs), rec)
      ∧ (listGet kvs "error" = Option.none → rec.error = PyVal.null)
      ∧ (∀ d, listGet kvs "error" = some (PyVal.dict d) →
          rec.error = (listGet d "message").getD PyVal.null)
      ∧ (∀ v, listGet kvs "error" = some v → v.isDict = false →
          rec.error = v) := by
  obtain ⟨c, hcsome⟩ :=
    Option.isSome_iff_exists.mp (resolveClient_isSome carg r hc)
  refine ⟨⟨tS, tE, jsonError kvs⟩, ?_, ?_, ?_, ?_⟩
  · simp [rpc_call, hcsome, hs]
  · intro h; simp [jsonError, pyDictGet, h]
  · intro d h; simp [jsonError, pyDictGet, h]
  · intro v h hv
    cases v <;> simp_all [jsonError, pyDictGet, PyVal.isDict]

/-- Claim C4 witness: a 2xx response with body
`{"error": {"message": "X"}}` yields a record with error `"X"`. -/
theorem rpc_error_extraction_witness :
    ∃ rec : CallRecord,
      rpc_call (ClientArg.single (0 : Nat)) 0
          (HttpOutcome.response 200
            (PyVal.dict [("error", PyVal.dict [("message", PyVal.str "X")])])) 0 1
        = some (some (200,
            PyVal.dict [("error", PyVal.dict [("message", PyVal.str "X")])]), rec)
      ∧ rec.error = PyVal.str "X" := by
  obtain ⟨rec, h1, -, h3, -⟩ :=
    rpc_error_extraction (ClientArg.single (0 : Nat)) 0 200 0 1
      [("error", PyVal.dict [("message", PyVal.str "X")])] rfl rfl
  exact ⟨rec, h1, by simpa using h3 [("message", PyVal.str "X")] rfl⟩

/-- Claim C5: a call that completes with a non-2xx HTTP status takes the
same path as a transport failure — the response is discarded, the error is
a (non-null) string form of the failure, and the call returns normally, so
the batch is never crashed by an HTTP status error. -/
theorem http_status_error_recovered {α : Type} (carg : ClientArg α)
    (r status tS tE : Nat) (body : PyVal)
    (hc : cargNonempty carg = true) (hs : isSuccess status = false) :
    rpc_call carg r (HttpOutcome.response status body) tS tE
      = some (Option.none, ⟨tS, tE, PyVal.str (httpStatusRepr status)⟩)
    ∧ rpc_call carg r (HttpOutcome.response status body) tS tE
        = rpc_call carg r (HttpOutcome.exn (httpStatusRepr status)) tS tE
    ∧ (rpc_call carg r (HttpOutcome.response status body) tS tE).map
        (fun p => p.2.error.isStr) = some true := by
  obtain ⟨c, hcsome⟩ :=
    Option.isSome_iff_exists.mp (resolveClient_isSome carg r hc)
  refine ⟨?_, ?_, ?_⟩ <;> simp [rpc_call, hcsome, hs, PyVal.isStr]

/-- Claim C5 witness: a 404 response is recorded as a string error with the
response discarded, identically to a transport failure. -/
theorem http_status_error_recovered_witness :
    rpc_call (ClientArg.single (0 : Nat)) 0 (HttpOutcome.response 404 PyVal.null) 0 1
      = some (Option.none, ⟨0, 1, PyVal.str (httpStatusRepr 404)⟩)
    ∧ rpc_call (ClientArg.single (0 : Nat)) 0 (HttpOutcome.response 404 PyVal.null) 0 1
        = rpc_call (ClientArg.single (0 : Nat)) 0
            (HttpOutcome.exn (httpStatusRepr 404)) 0 1
    ∧ (rpc_call (ClientArg.single (0 : Nat)) 0
          (HttpOutcome.response 404 PyVal.null) 0 1).map
        (fun p => p.2.error.isStr) = some true :=
  http_status_error_recovered (ClientArg.single (0 : Nat)) 0 404 0 1 PyVal.null rfl rfl

/-- Claim C6 counterexample: an RPC-level error whose top-level error field
is an object without a `message` key — here a 2xx body
`{"error": {"code": 3}}` — yields a record whose error is null, so the
record's error is not populated for every failure of the taxonomy. -/
theorem error_recovery_counterexample :
    (rpc_call (ClientArg.single (0 : Nat)) 0
        (HttpOutcome.response 200
          (PyVal.dict [("error", PyVal.dict [("code", PyVal.int 3)])])) 0 1).map
      (fun p => p.2.error) = some PyVal.null :=
  rfl

/-- Claim C6 (amended): all three error kinds of the taxonomy are fully
recovered inside `rpc_call` — the call returns a valid Call Record and
never lets the failure propagate.  Transport errors and HTTP status errors
always populate the record's error with a (non-null) string; an RPC-level
error populates it with the extracted message — the nested message value
when the error field is an object carrying one, the field's value verbatim
when it is not an object — except that an error object without a message
key leaves the error null. -/
theorem error_recovery {α : Type} (carg : ClientArg α) (r tS tE : Nat)
    (hc : cargNonempty carg = true) :
    (∀ msg, rpc_call carg r (HttpOutcome.exn msg) tS tE
        = some (Option.none, ⟨tS, tE, PyVal.str msg⟩))
    ∧ (∀ status body, isSuccess status = false →
        rpc_call carg r (HttpOutcome.response status body) tS tE
          = some (Option.none, ⟨tS, tE, PyVal.str (httpStatusRepr status)⟩))
    ∧ (∀ status kvs, isSuccess status = true →
        rpc_call carg r (HttpOutcome.response status (PyVal.dict kvs)) tS tE
          = some (some (status, PyVal.dict kvs), ⟨tS, tE, jsonError kvs⟩))
    ∧ (∀ status kvs d m, isSuccess status = true →
        listGet kvs "error" = some (PyVal.dict d) →
        listGet d "message" = some m →
        (rpc_call carg r (HttpOutcome.response status (PyVal.dict kvs)) tS tE).map
          (fun p => p.2.error) = some m)
    ∧ (∀ status kvs v, isSuccess status = true →
        listGet kvs "error" = some v → v.isDict = false →
        (rpc_call carg r (HttpOutcome.response status (PyVal.dict kvs)) tS tE).map
          (fun p => p.2.error) = some v) := by
  obtain ⟨c, hcsome⟩ :=
    Option.isSome_iff_exists.mp (resolveClient_isSome carg r hc)
  refine ⟨?_, ?_, ?_, ?_, ?_⟩
  · intro msg; simp [rpc_call, hcsome]
  · intro status body hs; simp [rpc_call, hcsome, hs]
  · intro status kvs hs; simp [rpc_call, hcsome, hs]
  · intro status kvs d m hs he hm
    simp [rpc_call, hcsome, hs, jsonError, pyDictGet, he, hm]
  · intro status kvs v hs he hv
    cases v <;> simp_all [rpc_call, hcsome, jsonError, pyDictGet, PyVal.isDict]

/-- Claim C6 witness: a transport error, a 429 status error, and an
RPC-level error with a plain-string error field are all recovered with the
stated error values. -/
theorem error_recovery_witness :
    rpc_call (ClientArg.single (0 : Nat)) 0 (HttpOutcome.exn "boom") 0 1
      = some (Option.none, ⟨0, 1, PyVal.str "boom"⟩)
    ∧ rpc_call (ClientArg.single (0 : Nat)) 0 (HttpOutcome.response 429 PyVal.null) 0 1
        = some (Option.none, ⟨0, 1, PyVal.str (httpStatusRepr 429)⟩)
    ∧ (rpc_call (ClientArg.single (0 : Nat)) 0
          (HttpOutcome.response 200 (PyVal.dict [("error", PyVal.str "E")])) 0 1).map
        (fun p => p.2.error) = some (PyVal.str "E") := by
  obtain ⟨h1, h2, -, -, h5⟩ :=
    error_recovery (ClientArg.single (0 : Nat)) 0 0 1 rfl
  exact ⟨h1 "boom", h2 429 PyVal.null rfl,
    h5 200 [("error", PyVal.str "E")] (PyVal.str "E") rfl rfl rfl⟩

/-- Claim C9: a call whose 2xx response body carries a top-level error
field that is an object without a `message` key yields a record whose
error is null — the RPC-level error is silently dropped and the record is
indistinguishable from a success record with the same timestamps. -/
theorem error_object_without_message {α : Type} (carg : ClientArg α)
    (r status tS tE : Nat) (kvs d : List (String × PyVal))
    (hc : cargNonempty carg = true) (hs : isSuccess status = true)
    (he : listGet kvs "error" = some (PyVal.dict d))
    (hm : listGet d "message" = Option.none) :
    (rpc_call carg r (HttpOutcome.response status (PyVal.dict kvs)) tS tE).map
      (fun p => p.2) = some ⟨tS, tE, PyVal.null⟩ := by
  obtain ⟨c, hcsome⟩ :=
    Option.isSome_iff_exists.mp (resolveClient_isSome carg r hc)
  simp [rpc_call, hcsome, hs, jsonError, pyDictGet, he, hm]

/-- Claim C9 witness: a 204 response with body
`{"error": {"code": -32000}}` yields the same record as a success. -/
theorem error_object_without_message_witness :
    (rpc_call (ClientArg.single (1 : Nat)) 0
        (HttpOutcome.response 204
          (PyVal.dict [("error", PyVal.dict [("code", PyVal.int (-32000))])])) 2 3).map
      (fun p => p.2) = some ⟨2, 3, PyVal.null⟩ :=
  error_object_without_message (ClientArg.single 1) 0 204 2 3
    [("error", PyVal.dict [("code", PyVal.int (-32000))])]
    [("code", PyVal.int (-32000))] rfl rfl rfl rfl

/-- Claim C8: `random.choice` over the pool selects the member at the
drawn index, so a pool of size 1 always yields its single member, and for
a pool of any size every index below the length selects the corresponding
member (each member is reachable under the uniform index draw). -/
theorem client_pool_selection {α : Type} (c : α) (r : Nat) (cs : List α)
    (j : Nat) (hj : j < cs.length) :
    resolveClient (ClientArg.pool [c]) r = some c
    ∧ resolveClient (ClientArg.pool cs) j = cs.get? j
    ∧ (cs.get? j).isSome = true := by
  refine ⟨?_, ?_, ?_⟩
  · have he : resolveClient (ClientArg.pool [c]) r = [c].get? (r % 1) := rfl
    rw [he, Nat.mod_one]
    rfl
  · have he : resolveClient (ClientArg.pool cs) j = cs.get? (j % cs.length) := rfl
    rw [he, Nat.mod_eq_of_lt hj]
  · rw [List.get?_eq_get hj]
    rfl

/-- Claim C8 witness: a singleton pool always selects its member, and in a
three-member pool index 2 selects the third member. -/
theorem client_pool_selection_witness :
    resolveClient (ClientArg.pool [7]) 5 = some 7
    ∧ resolveClient (ClientArg.pool [1, 2, 3]) 2 = [1, 2, 3].get? 2
    ∧ (([1, 2, 3] : List Nat).get? 2).isSome = true :=
  client_pool_selection 7 5 [1, 2, 3] 2 (by decide)

/-- Claim C2 counterexample: the per-provider limit/burst sweep contains no
limit-mode batch at all — every one of its 29 batches is gated by
`test_flood`'s semaphore — and it runs five single-client warm-up batches,
not one. -/
theorem limits_sweep_counterexample :
    (batchList (test_limits_provider_trace "quicknode" "url")).countP
        (fun b => b.mode == Mode.limit) = 0
    ∧ (batchList (test_limits_provider_trace "quicknode" "url")).length = 29
    ∧ ((batchList (test_limits_provider_trace "quicknode" "url")).filter
        (fun b => b.clients == 1)).length = 5 :=
  ⟨rfl, rfl, rfl⟩

/-- Claim C2 (amended): the full limit/burst sweep, for each provider,
creates a fixed-size pool of 5 H2 clients, runs one warm-up flood batch
per pool member (each over a single client, 5 blocks at concurrency 5),
and then runs a monotonically increasing series of flood-mode
(semaphore-gated) batches whose block count is 3 times the concurrency
parameter, with 5-second cooldowns after every batch. -/
theorem limits_sweep_structure (provider url : String) :
    (batchList (test_limits_provider_trace provider url)).length = 29
    ∧ (batchList (test_limits_provider_trace provider url)).all
        (fun b => b.mode == Mode.flood && b.h2) = true
    ∧ ((batchList (test_limits_provider_trace provider url)).take 5).all
        (fun b => b.numBlocks == 5 && b.gate == 5 && b.clients == 1) = true
    ∧ ((batchList (test_limits_provider_trace provider url)).drop 5).map
        (fun b => b.gate) = List.range' 5 24 5
    ∧ ((batchList (test_limits_provider_trace provider url)).drop 5).all
        (fun b => b.numBlocks == 3 * b.gate && b.clients == 5) = true
    ∧ strictIncreasing
        (((batchList (test_limits_provider_trace provider url)).drop 5).map
          (fun b => b.gate)) = true
    ∧ sleepSecs (test_limits_provider_trace provider url) = List.replicate 29 5
    ∧ (test_limits_provider_trace provider url).map isBatchEvent
        = (List.replicate 29 [true, false]).flatten :=
  ⟨rfl, rfl, rfl, rfl, rfl, rfl, rfl, rfl⟩

/-- Claim C7: the per-provider protocol sweep runs exactly four flood-mode
batches over `NUM_BLOCKS` blocks at the given concurrency, in the order
one H1 client, three H1 clients, one H2 client, three H2 clients, with a
60-second sleep between consecutive batches; the cross-provider sweep runs
that sweep once per provider (alchemy, chainstack, quicknode) with a
15-second sleep between providers. -/
theorem flood_protocol_sweep_structure (aUrl cUrl qUrl u tag : String)
    (c : Nat) (hx : Bool) :
    (batchList (test_flood_protocols_trace u tag c hx)).map
        (fun b => (b.clients, b.h2))
      = [(1, false), (3, false), (1, true), (3, true)]
    ∧ (batchList (test_flood_protocols_trace u tag c hx)).all
        (fun b => b.mode == Mode.flood) = true
    ∧ (batchList (test_flood_protocols_trace u tag c hx)).map (fun b => b.gate)
        = [c, c, c, c]
    ∧ (batchList (test_flood_protocols_trace u tag c hx)).map
        (fun b => b.numBlocks) = [1000, 1000, 1000, 1000]
    ∧ sleepSecs (test_flood_protocols_trace u tag c hx) = [60, 60, 60]
    ∧ (test_flood_protocols_trace u tag c hx).map isBatchEvent
        = [true, false, true, false, true, false, true]
    ∧ (batchList (test_flood_protocols_all_providers_trace aUrl cUrl qUrl c)).map
        (fun b => b.tag)
      = ["alchemy", "alchemy", "alchemy", "alchemy",
         "chainstack", "chainstack", "chainstack", "chainstack",
         "quicknode", "quicknode", "quicknode", "quicknode"]
    ∧ sleepSecs (test_flood_protocols_all_providers_trace aUrl cUrl qUrl c)
        = [60, 60, 60, 15, 60, 60, 60, 15, 60, 60, 60]
    ∧ (test_flood_protocols_all_providers_trace aUrl cUrl qUrl c).map isBatchEvent
        = [true, false, true, false, true, false, true, false,
           true, false, true, false, true, false, true, false,
           true, false, true, false, true, false, true] :=
  ⟨rfl, rfl, rfl, rfl, rfl, rfl, rfl, rfl, rfl⟩
